import Mathlib

/-!
Verification of the finance-bot repository: a shallow embedding, in Lean 4,
of the session/state-machine and category-cache subsystem described in
`spec.md`, translated from the Python sources under `src/`.

Modelling conventions:
* Python `float` values are modelled by `PyFloat` (an exact rational for the
  finite case plus `inf`, `negInf`, `nan`); decimal literals are mapped to
  their exact rational value (IEEE-754 rounding, underflow and overflow are
  not modelled).  `float(str)` parsing covers optional sign, decimal digits
  with optional fractional part and exponent, and the case-insensitive words
  `inf` / `infinity` / `nan`; PEP 515 underscores and non-ASCII Unicode
  digits are not modelled.
* Wall-clock instants are rationals measured in hours, so the 24-hour cache
  expiry window is the constant `24`.
* Filesystem and JSON round-trips are modelled as reliable: the cache file is
  `Option CacheContent`, where `CacheContent.corrupt` stands for a file whose
  content `json.load` rejects, and `Timestamp.unparsable` for a stored
  timestamp string `datetime.fromisoformat` rejects.  Every `try/except`
  of the Python sources is translated explicitly, so an embedded function is
  total exactly when the source catches all its exceptions.
* The remote spreadsheet (`get_all_data('Сводка')`) is an oracle of type
  `Except String (List (List String))`: `.error` is a raised exception,
  `.ok rows` the returned cell matrix.
-/

namespace FinanceBot

/-! ## Python string and number primitives -/

/-- Characters Python `str.strip()` removes (Unicode whitespace; the ones
relevant to this code base, including the no-break space `\xa0`). -/
def isPySpace (c : Char) : Bool :=
  c = ' ' || c = '\t' || c = '\n' || c = '\r' || c = '\x0b' || c = '\x0c' || c = '\xa0'

/-- Model of Python `str.strip()`. -/
def pyStrip (s : String) : String :=
  String.mk (((s.toList.dropWhile isPySpace).reverse.dropWhile isPySpace).reverse)

/-- Model of Python `str.lower()` for the alphabets this code base uses:
ASCII and Russian Cyrillic (full Unicode case folding is not modelled). -/
def pyCharLower (c : Char) : Char :=
  if 'A' ≤ c ∧ c ≤ 'Z' then Char.ofNat (c.toNat + 32)
  else if 'А' ≤ c ∧ c ≤ 'Я' then Char.ofNat (c.toNat + 32)
  else if c = 'Ё' then 'ё'
  else c

/-- Model of Python `str.lower()`. -/
def pyLower (s : String) : String :=
  String.mk (s.toList.map pyCharLower)

/-- Split a character list at every occurrence of `sep`; model of Python
`str.split(sep)` for a single-character separator. -/
def splitOnChar (sep : Char) : List Char → List (List Char)
  | [] => [[]]
  | c :: rest =>
    let r := splitOnChar sep rest
    if c = sep then [] :: r
    else
      match r with
      | [] => [[c]]
      | h :: t => (c :: h) :: t

/-- Model of Python `str.split(sep)` for a single-character separator. -/
def pySplit (s : String) (sep : Char) : List String :=
  (splitOnChar sep s.toList).map String.mk

/-- Numeric value of a digit list (most significant first). -/
def digitsVal (l : List Char) : Nat :=
  l.foldl (fun a c => a * 10 + (c.toNat - 48)) 0

/-- Model of Python `int(str)`: optional surrounding whitespace, optional
sign, decimal digits (PEP 515 underscores not modelled). -/
def pyInt? (s : String) : Option Int :=
  match (pyStrip s).toList with
  | '+' :: r => if !r.isEmpty && r.all Char.isDigit then some (digitsVal r) else none
  | '-' :: r => if !r.isEmpty && r.all Char.isDigit then some (-(digitsVal r : Int)) else none
  | l => if !l.isEmpty && l.all Char.isDigit then some (digitsVal l) else none

/-- Model of a Python `float` value: exact rational if finite, or one of the
non-finite values `inf`, `-inf`, `nan`. -/
inductive PyFloat where
  | finite (q : ℚ)
  | inf
  | negInf
  | nan
  deriving DecidableEq, Repr

/-- Is this `float` value finite? -/
def PyFloat.isFinite : PyFloat → Bool
  | .finite _ => true
  | _ => false

/-- Model of the Python comparison `v <= 0` on a float: `nan <= 0` and
`inf <= 0` are `False`, `-inf <= 0` is `True`. -/
def pyLeZero : PyFloat → Bool
  | .finite q => decide (q ≤ 0)
  | .inf => false
  | .negInf => true
  | .nan => false

/-- Exponent part of a float literal (the characters after `e`). -/
def parseExpPart : List Char → Option Int
  | [] => none
  | '+' :: r => if !r.isEmpty && r.all Char.isDigit then some (digitsVal r) else none
  | '-' :: r => if !r.isEmpty && r.all Char.isDigit then some (-(digitsVal r : Int)) else none
  | l => if l.all Char.isDigit then some (digitsVal l) else none

/-- Mantissa of a float literal: `D+`, `D+.D*` or `.D+`. -/
def parseMantissa (l : List Char) : Option ℚ :=
  let intPart := l.takeWhile Char.isDigit
  let rest := l.dropWhile Char.isDigit
  match rest with
  | [] => if intPart.isEmpty then none else some (digitsVal intPart)
  | '.' :: frac =>
    if frac.all Char.isDigit && (!intPart.isEmpty || !frac.isEmpty) then
      some ((digitsVal intPart : ℚ) + (digitsVal frac : ℚ) / ((10 : ℚ) ^ frac.length))
    else none
  | _ => none

/-- Unsigned numeric float literal with optional exponent. -/
def parseUnsignedFloat (l : List Char) : Option ℚ :=
  let mant := l.takeWhile (fun c => c ≠ 'e')
  let rest := l.dropWhile (fun c => c ≠ 'e')
  match rest with
  | [] => parseMantissa mant
  | _ :: ex =>
    match parseMantissa mant, parseExpPart ex with
    | some m, some p => some (m * (10 : ℚ) ^ p)
    | _, _ => none

/-- Unsigned body of a `float(str)` argument: the special words or a numeric
literal. -/
def pyFloatCore (l : List Char) (neg : Bool) : Option PyFloat :=
  if l = ['i', 'n', 'f'] || l = ['i', 'n', 'f', 'i', 'n', 'i', 't', 'y'] then
    some (if neg then .negInf else .inf)
  else if l = ['n', 'a', 'n'] then some .nan
  else
    match parseUnsignedFloat l with
    | some q => some (.finite (if neg then -q else q))
    | none => none

/-- Model of Python `float(str)`: `some v` when the conversion succeeds with
value `v`, `none` when it raises `ValueError`. -/
def pyFloat? (s : String) : Option PyFloat :=
  match (pyStrip s).toList.map pyCharLower with
  | '+' :: r => pyFloatCore r false
  | '-' :: r => pyFloatCore r true
  | l => pyFloatCore l false

/-! ## Date validation — models `datetime.strptime(date, "%d.%m.%Y")`
(src/models/transaction.py) -/

/-- Gregorian leap-year predicate, as Python's `datetime` uses. -/
def isLeapYear (y : Nat) : Bool :=
  (y % 4 = 0 && y % 100 ≠ 0) || y % 400 = 0

/-- Days in a month of a given year. -/
def daysInMonth (m y : Nat) : Nat :=
  if m = 2 then (if isLeapYear y then 29 else 28)
  else if m = 4 || m = 6 || m = 9 || m = 11 then 30
  else 31

/-- Is this a string of 1 to `maxLen` decimal digits? -/
def digitField (s : String) (maxLen : Nat) : Bool :=
  !s.isEmpty && s.toList.all Char.isDigit && s.length ≤ maxLen

/-- Model of `datetime.strptime(s, "%d.%m.%Y")` succeeding: day and month of
1–2 digits, year of 1–4 digits, all in the ranges `datetime` accepts (year at
least 1, day at most the month's length). -/
def date_ok (s : String) : Bool :=
  match pySplit s '.' with
  | [d, m, y] =>
    digitField d 2 && digitField m 2 && digitField y 4 &&
      (let dv := digitsVal d.toList
       let mv := digitsVal m.toList
       let yv := digitsVal y.toList
       1 ≤ dv && 1 ≤ mv && mv ≤ 12 && 1 ≤ yv && dv ≤ daysInMonth mv yv)
  | _ => false

/-! ## TransactionRecord — src/models/transaction.py -/

/-- The `Transaction` dataclass of src/models/transaction.py. -/
structure Transaction where
  transaction_type : String
  date : String
  amount : PyFloat
  description : String
  category : String
  row_index : Option Int := none
  deriving DecidableEq, Repr

/-- Is the transaction type one of the two recognized values, after
lowercasing?  (`self.transaction_type.lower() in ["расходы", "доходы"]`.) -/
def typeOkB (tt : String) : Bool :=
  pyLower tt == "расходы" || pyLower tt == "доходы"

/-- Constructing a `Transaction`, i.e. `Transaction(...)` followed by
`__post_init__`: raises (returns `.error`) exactly when the type check or the
date check of `__post_init__` fails; no other field is validated. -/
def Transaction.make (tt d : String) (a : PyFloat) (desc cat : String) :
    Except String Transaction :=
  if typeOkB tt = false then
    .error ("Неподдерживаемый тип транзакции: " ++ tt)
  else if date_ok d = false then
    .error ("Неверный формат даты: " ++ d ++ ". Ожидается DD.MM.YYYY")
  else
    .ok ⟨tt, d, a, desc, cat, none⟩

/-- Does `Transaction.make` succeed on these arguments? -/
def makeOk (tt d : String) (a : PyFloat) (desc cat : String) : Bool :=
  match Transaction.make tt d a desc cat with
  | .ok _ => true
  | .error _ => false

/-! ## Category cache — src/utils/cache_manager.py
Instants are rationals in hours; `cache_expiry_hours = 24`. -/

/-- The stored `timestamp` field: absent/falsy, an ISO string
`fromisoformat` rejects, or a parsed instant (hours). -/
inductive Timestamp where
  | missing
  | unparsable (s : String)
  | time (t : ℚ)
  deriving DecidableEq, Repr

/-- Category mapping, kind → names, in insertion order (a Python dict). -/
abbrev Cats := List (String × List String)

/-- Content of the cache file: a document `json.load` rejects, or a parsed
document with its `timestamp` and `categories` fields. -/
inductive CacheContent where
  | corrupt (e : String)
  | entry (timestamp : Timestamp) (categories : Cats)
  deriving DecidableEq, Repr

/-- The cache file: `none` when the file does not exist. -/
abbrev CacheFile := Option CacheContent

/-- `CacheManager._is_cache_expired`: `True` for a missing or unparsable
timestamp, else `datetime.now() > cache_time + timedelta(hours=24)`. -/
def is_cache_expired (timestamp : Timestamp) (now : ℚ) : Bool :=
  match timestamp with
  | .missing => true
  | .unparsable _ => true
  | .time t => decide (now > t + 24)

/-- `CacheManager.load_categories`: `{}` when the file is missing, corrupt or
expired, else the stored mapping. -/
def load_categories (file : CacheFile) (now : ℚ) : Cats :=
  match file with
  | none => []
  | some (.corrupt _) => []
  | some (.entry ts cats) => if is_cache_expired ts now then [] else cats

/-- `CacheManager.save_categories`: writes `{timestamp: now, categories: C}`
and returns `True` (filesystem writes modelled as reliable). -/
def save_categories (cats : Cats) (now : ℚ) : Bool × CacheFile :=
  (true, some (.entry (.time now) cats))

/-- `CacheManager.clear_cache`: removes the file if present; returns `True`
(idempotent; filesystem modelled as reliable). -/
def clear_cache (_file : CacheFile) : Bool × CacheFile :=
  (true, none)

/-- `CacheManager.is_cache_valid`. -/
def is_cache_valid (file : CacheFile) (now : ℚ) : Bool :=
  match file with
  | none => false
  | some (.corrupt _) => false
  | some (.entry ts _) => ! is_cache_expired ts now

/-- The descriptor dictionary `CacheManager.get_cache_info` returns; absent
keys are `none`.  The Python key `exists` is rendered `cache_exists`
(`exists` is a Lean keyword). -/
structure CacheInfo where
  cache_exists : Bool
  message : Option String := none
  error : Option String := none
  timestamp : Option ℚ := none
  age_hours : Option ℚ := none
  total_categories : Option Nat := none
  category_types : Option (List String) := none
  is_expired : Option Bool := none
  deriving DecidableEq, Repr

/-- Total number of category names across kinds
(`sum(len(cats) for cats in categories.values())`). -/
def total_cats (cats : Cats) : Nat :=
  (cats.map (fun p => p.2.length)).sum

/-- `CacheManager.get_cache_info`: every branch of the source, including the
`except` branch that catches a `json.load` or `fromisoformat` failure and
reports `{'exists': False, 'error': str(e)}`.  Total by construction, as the
source catches all exceptions. -/
def get_cache_info (file : CacheFile) (now : ℚ) : CacheInfo :=
  match file with
  | none =>
      { cache_exists := false, message := some "Кеш не найден" }
  | some (.corrupt e) =>
      { cache_exists := false, error := some e }
  | some (.entry .missing cats) =>
      { cache_exists := true, message := some "Неверный формат кеша",
        total_categories := some (total_cats cats) }
  | some (.entry (.unparsable s) _) =>
      { cache_exists := false, error := some ("Invalid isoformat string: " ++ s) }
  | some (.entry (.time t) cats) =>
      { cache_exists := true, timestamp := some t, age_hours := some (now - t),
        total_categories := some (total_cats cats),
        category_types := some (cats.map (fun p => p.1)),
        is_expired := some (is_cache_expired (.time t) now) }

/-! ## LedgerGateway — src/google_sheets/client.py -/

/-- The remote summary worksheet as observed by `get_all_data('Сводка')`:
`.error e` when the call raises, `.ok rows` the cell matrix it returns. -/
abbrev Remote := Except String (List (List String))

/-- Column offset for a category kind in the summary sheet: column B
(index 1) for expenses, column H (index 7) for income. -/
def column_index (category_type : String) : Option Nat :=
  if pyLower category_type = "расходы" then some 1
  else if pyLower category_type = "доходы" then some 7
  else none

/-- Index of the first row whose second cell is the sentinel `"Итого"`. -/
def find_itogo (data : List (List String)) : Option Nat :=
  data.findIdx? (fun row => decide (1 < row.length) && row.getD 1 "" == "Итого")

/-- One cell's contribution: skip empty and label strings, trim and replace
no-break spaces, as the body of the collection loop does. -/
def clean_category (raw : String) : Option String :=
  let category := pyStrip raw
  if category ≠ "" ∧ category ∉ ["Итого", "Предполагаемые", "Фактические"] then
    some (pyStrip (String.mk (category.toList.map (fun c => if c = '\xa0' then ' ' else c))))
  else none

/-- The collection loop of `_fetch_categories_from_sheets` over the rows after
the sentinel. -/
def collect_categories (rows : List (List String)) (col : Nat) : List String :=
  rows.foldl
    (fun acc row =>
      if col < row.length ∧ row.getD col "" ≠ "" then
        match clean_category (row.getD col "") with
        | some c => acc ++ [c]
        | none => acc
      else acc)
    []

/-- `GoogleSheetsClient._fetch_categories_from_sheets`: returns `[]` when the
remote call raises (its `except` branch), when the sheet is empty, when the
sentinel row is absent, or when the kind is unrecognized; otherwise collects
the kind's column below the sentinel.  Never raises. -/
def fetch_categories_from_sheets (category_type : String) (remote : Remote) :
    List String :=
  match remote with
  | .error _ => []
  | .ok data =>
    if data = [] then []
    else
      match find_itogo data with
      | none => []
      | some i =>
        match column_index category_type with
        | none => []
        | some col => collect_categories (data.drop (i + 1)) col

/-- `GoogleSheetsClient._update_cache_with_categories`: fetches both kinds and
overwrites the cache file. -/
def update_cache_with_categories (remote : Remote) (now : ℚ) : CacheFile :=
  (save_categories
    [("расходы", fetch_categories_from_sheets "расходы" remote),
     ("доходы", fetch_categories_from_sheets "доходы" remote)] now).2

/-- The result dictionary of `refresh_categories_cache`; absent keys are
`none`. -/
structure RefreshResult where
  success : Bool
  expenses_count : Option Nat := none
  income_count : Option Nat := none
  total_categories : Option Nat := none
  error : Option String := none
  deriving DecidableEq, Repr

/-- `GoogleSheetsClient.refresh_categories_cache`: clears the cache, fetches
both kinds and saves them, returning the per-kind counts.  Its `except`
branch (returning `{'success': False, 'error': str(e)}`) is unreachable under
this model because `clear_cache`, `_fetch_categories_from_sheets` and
`save_categories` all catch their own exceptions in the source. -/
def refresh_categories_cache (remote : Remote) (file : CacheFile) (now : ℚ) :
    RefreshResult × CacheFile :=
  let file1 := (clear_cache file).2
  let expenses := fetch_categories_from_sheets "расходы" remote
  let income := fetch_categories_from_sheets "доходы" remote
  let saved := save_categories [("расходы", expenses), ("доходы", income)] now
  let _ := file1
  ({ success := saved.1,
     expenses_count := some expenses.length,
     income_count := some income.length,
     total_categories := some (expenses.length + income.length) },
   saved.2)

/-- `GoogleSheetsClient.get_categories`: serve from the cache when the loaded
mapping is non-empty and contains the kind; otherwise fetch the kind, rebuild
the whole cache, and return the fetched list.  Total (the source wraps
everything in `try/except` returning `[]`, and every callee already catches
its own exceptions). -/
def get_categories (category_type : String) (remote : Remote) (file : CacheFile)
    (now : ℚ) : List String × CacheFile :=
  let cached := load_categories file now
  if (!cached.isEmpty && (List.lookup category_type cached).isSome) = true then
    ((List.lookup category_type cached).getD [], file)
  else
    (fetch_categories_from_sheets category_type remote,
     update_cache_with_categories remote now)

/-- A side effect the bot performs against its collaborators. -/
inductive Effect where
  | sendMessage (text : String)
  | editMessage (text : String)
  | answerCallback (text : String)
  | batchClear (range : String)
  deriving DecidableEq, Repr

/-- `GoogleSheetsClient.delete_transaction`: clears (does not remove) the
4-cell block of the given kind at the given row — columns B–E for expenses,
G–J for income — and raises `ValueError` for an unrecognized kind. -/
def delete_transaction (row_index : Int) (transaction_type : String) :
    Except String Effect :=
  if pyLower transaction_type = "расходы" then
    .ok (.batchClear ("B" ++ toString row_index ++ ":E" ++ toString row_index))
  else if pyLower transaction_type = "доходы" then
    .ok (.batchClear ("G" ++ toString row_index ++ ":J" ++ toString row_index))
  else
    .error ("Неподдерживаемый тип транзакции: " ++ transaction_type)

/-! ## Access gate — src/utils/access_checker.py -/

/-- `is_user_allowed`: membership of the user id in the static allowlist
`ALLOWED_USER_IDS`. -/
def is_user_allowed (user_id : Int) (allowed_user_ids : List Int) : Bool :=
  allowed_user_ids.contains user_id

/-! ## Conversation state machine — src/bot/finance_bot.py and
src/bot/states/transaction_states.py.

Handlers are embedded as functions from (the result of `check_access`, the
user's session dictionary, the user's conversation state, the inbound
payload) to a `StepResult`.  Messaging calls become `Effect`s; the per-user
session dictionary `user_data[user_id]` becomes `SessionState`; the
framework's keyed state store becomes `Option ConvState` (`none` = no active
state). -/

/-- The registered states (`TransactionStates` and `MenuStates`). -/
inductive ConvState where
  | choosing_type
  | choosing_category
  | entering_amount
  | entering_description
  | entering_date
  | confirming
  | delete_choosing_transaction
  | delete_confirming
  | stats_choosing_period
  | stats_choosing_category
  | stats_choosing_type
  | main_menu
  | transaction_menu
  | statistics_menu
  | settings_menu
  deriving DecidableEq, Repr

/-- The per-user session dictionary; each key that a handler may store is an
optional field, `none` meaning absent. -/
structure SessionState where
  transaction_type : Option String := none
  category : Option String := none
  amount : Option PyFloat := none
  description : Option String := none
  date : Option String := none
  deriving DecidableEq, Repr

/-- Is the session dictionary empty (no key present)? -/
def SessionState.isEmpty (s : SessionState) : Bool :=
  decide (s.transaction_type = none ∧ s.category = none ∧ s.amount = none ∧
    s.description = none ∧ s.date = none)

/-- The empty session, as left by `clear_user_data`. -/
def SessionState.cleared : SessionState :=
  ⟨none, none, none, none, none⟩

/-- What a handler leaves behind: the session, the conversation state, and
the outbound effects in order. -/
structure StepResult where
  session : SessionState
  conv : Option ConvState
  effects : List Effect
  deriving DecidableEq, Repr

/-- The fixed access-denied message sent to unauthorized users. -/
def access_denied_text : String :=
  "🚫 У вас нет доступа к этому боту.\n\nДля получения доступа обратитесь к администратору."

/-- The re-prompt sent for an invalid amount. -/
def amount_error_text : String :=
  "❌ Неверный формат суммы. Введите число больше 0.\n\nПримеры: 150, 1500.50, 100,25"

/-- `FinanceBot.show_main_menu`: refuses unauthorized users with the fixed
denial message and no state change; otherwise clears the user's session,
shows the menu and sets the `main_menu` state. -/
def show_main_menu (allowed : Bool) (sess : SessionState) (conv : Option ConvState) :
    StepResult :=
  if allowed = false then
    ⟨sess, conv, [.sendMessage access_denied_text]⟩
  else
    ⟨SessionState.cleared, some .main_menu,
     [.sendMessage "🏦 *Главное меню*\n\nВыберите действие:"]⟩

/-- Replace every comma with a dot (`message.text.replace(',', '.')`). -/
def commaToDot (s : String) : String :=
  String.mk (s.toList.map (fun c => if c = ',' then '.' else c))

/-- `FinanceBot.handle_amount_input_manual` (reached only from state
`entering_amount`, after `handle_all_messages` has already verified access,
so `allowed` is the user's `check_access` result): the dedicated cancel token
routes through `show_main_menu`; otherwise the text, with commas replaced by
dots, goes through `float(...)` and the `<= 0` test, re-prompting without any
session or state change on failure, and storing the amount and advancing to
`entering_description` on success. -/
def handle_amount_input_manual (allowed : Bool) (sess : SessionState)
    (conv : Option ConvState) (text : String) : StepResult :=
  if text = "❌ Отмена" then
    let menu := show_main_menu allowed sess conv
    ⟨menu.session, menu.conv, .sendMessage "❌ Действие отменено" :: menu.effects⟩
  else
    match pyFloat? (commaToDot text) with
    | none => ⟨sess, conv, [.sendMessage amount_error_text]⟩
    | some amount_float =>
      if pyLeZero amount_float then
        ⟨sess, conv, [.sendMessage amount_error_text]⟩
      else
        ⟨{ sess with amount := some amount_float }, some .entering_description,
         [.sendMessage "✅ Сумма принята", .sendMessage "📝 Введите описание транзакции:"]⟩

/-- `FinanceBot.handle_add_transaction` (callback `add_expense` /
`add_income`).  `cats` is the list returned by the
`sheets_client.get_categories` call.  Checks access; stores the chosen kind
in the session *before* the emptiness check; aborts (message only, no state
change, session kept) when the list is empty; otherwise shows the category
keyboard and moves to `choosing_category`. -/
def handle_add_transaction (allowed : Bool) (data : String) (sess : SessionState)
    (conv : Option ConvState) (cats : List String) : StepResult :=
  if allowed = false then
    ⟨sess, conv, [.answerCallback "🚫 У вас нет доступа к этому боту."]⟩
  else
    let transaction_type := if data = "add_expense" then "расходы" else "доходы"
    let sess1 := { sess with transaction_type := some transaction_type }
    if cats = [] then
      ⟨sess1, conv,
       [.editMessage ("❌ Категории " ++ transaction_type ++
          " не найдены. Проверьте настройки таблицы.")]⟩
    else
      ⟨sess1, some .choosing_category,
       [.editMessage ("Выберите категорию для " ++
          (if transaction_type = "расходы" then "💸 расходы" else "💰 доходы") ++ ":")]⟩

/-- `FinanceBot.handle_confirm_delete_transaction` (callback
`confirm_delete_<row>_<kind>`).  The source performs **no** `check_access`
call in this handler, so the embedding takes no access input: it parses the
row index and kind from the payload and clears the ledger cells
unconditionally.  A malformed payload or an unrecognized kind lands in the
handler's `except` branch (error message, no ledger write). -/
def handle_confirm_delete_transaction (sess : SessionState)
    (conv : Option ConvState) (data : String) : StepResult :=
  let parts := pySplit data '_'
  if parts.length < 4 then
    ⟨sess, conv, [.answerCallback "❌ Ошибка данных"]⟩
  else
    match pyInt? (parts.getD 2 "") with
    | none =>
      ⟨sess, conv,
       [.editMessage ("❌ *Ошибка удаления*\n\ninvalid literal for int() with base 10: " ++
          parts.getD 2 ""),
        .answerCallback "❌ Произошла ошибка"]⟩
    | some row_index =>
      match delete_transaction row_index (parts.getD 3 "") with
      | .error e =>
        ⟨sess, conv,
         [.editMessage ("❌ *Ошибка удаления*\n\n" ++ e),
          .answerCallback "❌ Произошла ошибка"]⟩
      | .ok eff =>
        ⟨sess, conv,
         [eff,
          .editMessage "✅ *Транзакция удалена*\n\nТранзакция успешно удалена из Google Sheets.",
          .sendMessage "🏦 *Главное меню*\n\nВыберите действие:",
          .answerCallback "✅ Транзакция удалена"]⟩

/-- Does `s` start with `p`? (model of `str.startswith`). -/
def startsWithChars : List Char → List Char → Bool
  | [], _ => true
  | _ :: _, [] => false
  | p :: ps, c :: cs => p = c && startsWithChars ps cs

/-- Model of Python `data.startswith(p)`. -/
def pyStartsWith (s p : String) : Bool :=
  startsWithChars p.toList s.toList

/-- Which registered callback handler an inbound button press reaches. -/
inductive CallbackRoute where
  | add_transaction
  | category_selection
  | confirmation
  | cancellation
  | back_to_main
  | show_stats
  | show_transactions
  | delete_transaction_menu
  | stats_type
  | back_to_stats
  | show_management
  | refresh_categories
  | cache_info
  | clear_cache_route
  | system_status
  | back_to_management
  | delete_transaction_selection
  | confirm_delete_transaction
  deriving DecidableEq, Repr

/-- The callback dispatch of `FinanceBot._register_handlers`, evaluated in
registration order (telebot picks the first handler whose predicate holds);
`none` when no predicate matches (the press is ignored). -/
def dispatch_callback (data : String) : Option CallbackRoute :=
  if data == "add_expense" || data == "add_income" then some .add_transaction
  else if pyStartsWith data "cat_" then some .category_selection
  else if pyStartsWith data "confirm_" && !pyStartsWith data "confirm_delete_" &&
      !pyStartsWith data "confirm_edit_" then some .confirmation
  else if pyStartsWith data "cancel_" then some .cancellation
  else if data == "back_to_main" then some .back_to_main
  else if data == "show_stats" then some .show_stats
  else if data == "show_transactions" then some .show_transactions
  else if data == "delete_transaction" then some .delete_transaction_menu
  else if pyStartsWith data "stats_" then some .stats_type
  else if data == "back_to_stats" then some .back_to_stats
  else if data == "show_management" then some .show_management
  else if data == "refresh_categories" then some .refresh_categories
  else if data == "cache_info" then some .cache_info
  else if data == "clear_cache" then some .clear_cache_route
  else if data == "system_status" then some .system_status
  else if data == "back_to_management" then some .back_to_management
  else if pyStartsWith data "delete_trans_" then some .delete_transaction_selection
  else if pyStartsWith data "confirm_delete_" then some .confirm_delete_transaction
  else none

/-! ## Theorems for the claims -/

/-- Helper: `commaToDot` is idempotent — after every comma has been replaced
by a dot, a second replacement changes nothing. -/
theorem commaToDot_idem (s : String) : commaToDot (commaToDot s) = commaToDot s := by
  unfold commaToDot
  show String.mk ((s.toList.map _).map _) = _
  rw [List.map_map]
  congr 1
  apply List.map_congr_left
  intro c _
  by_cases hc : c = ',' <;> simp [hc]

/-- C1: the spec claims every inbound event from a user outside the
allowlist performs no ledger write and yields only the access-denied
message.  The code violates this: the callback dispatch routes the button
press `confirm_delete_10_расходы` to `handle_confirm_delete_transaction`,
which contains no `check_access` call at all (its embedding takes no access
input), so it clears the ledger cells `B10:E10` and replies with the success
messages — for any user, allowlisted or not. -/
theorem c1_unauthorized_confirm_delete_writes_ledger :
    dispatch_callback "confirm_delete_10_расходы" =
      some CallbackRoute.confirm_delete_transaction ∧
    handle_confirm_delete_transaction SessionState.cleared none
        "confirm_delete_10_расходы" =
      ⟨SessionState.cleared, none,
       [.batchClear "B10:E10",
        .editMessage "✅ *Транзакция удалена*\n\nТранзакция успешно удалена из Google Sheets.",
        .sendMessage "🏦 *Главное меню*\n\nВыберите действие:",
        .answerCallback "✅ Транзакция удалена"]⟩ :=
  ⟨rfl, rfl⟩

/-- C2 (counterexample): a `Transaction` with amount `-5` and empty category
is constructed successfully — `__post_init__` validates neither `amount > 0`
nor non-emptiness of `category`, refuting the claim that construction
succeeds only under those invariants. -/
theorem c2_negative_amount_empty_category_accepted :
    Transaction.make "расходы" "01.01.2024" (PyFloat.finite (-5)) "обед" "" =
      Except.ok ⟨"расходы", "01.01.2024", PyFloat.finite (-5), "обед", "", none⟩ ∧
    pyLeZero (PyFloat.finite (-5)) = true :=
  ⟨rfl, rfl⟩

/-- C2 (amended): construction succeeds exactly when the lowercased kind is
one of the two recognized values and the date parses under `DD.MM.YYYY`; the
amount and the category play no role in validation. -/
theorem c2_construction_succeeds_iff_type_and_date_ok (tt d : String) (a : PyFloat)
    (desc cat : String) :
    makeOk tt d a desc cat = (typeOkB tt && date_ok d) := by
  unfold makeOk Transaction.make
  cases h1 : typeOkB tt <;> cases h2 : date_ok d <;> simp [h1, h2]

/-- C3 (counterexample): with a remote whose fetch raises (`.error "boom"`),
`refresh_categories_cache` reports `success = True` with zero counts and
leaves the cache *written* with empty lists — not a failure result carrying
the error, and not a cleared cache, refuting the claim. -/
theorem c3_failed_fetch_reports_success_and_writes_cache :
    refresh_categories_cache (Except.error "boom")
        (some (CacheContent.entry (Timestamp.time 0) [("расходы", ["Еда"])])) 0 =
      ({ success := true, expenses_count := some 0, income_count := some 0,
         total_categories := some 0 },
       some (CacheContent.entry (Timestamp.time 0) [("расходы", []), ("доходы", [])])) :=
  rfl

/-- C3 (amended): for every remote behaviour, `refresh_categories_cache`
clears then rewrites the cache in full — an entry holding both kinds with the
refresh instant — and reports `success = True` with the per-kind counts and
total of whatever the fetches returned; a failed fetch surfaces only as empty
lists (the fetch helper catches its own exception), never as a failure
result, and the cache is never left cleared or partially written. -/
theorem c3_refresh_always_succeeds_with_full_write (remote : Remote)
    (file : CacheFile) (now : ℚ) :
    (refresh_categories_cache remote file now).1.success = true ∧
    (refresh_categories_cache remote file now).2 =
      some (CacheContent.entry (Timestamp.time now)
        [("расходы", fetch_categories_from_sheets "расходы" remote),
         ("доходы", fetch_categories_from_sheets "доходы" remote)]) ∧
    (refresh_categories_cache remote file now).1.expenses_count =
      some (fetch_categories_from_sheets "расходы" remote).length ∧
    (refresh_categories_cache remote file now).1.income_count =
      some (fetch_categories_from_sheets "доходы" remote).length ∧
    (refresh_categories_cache remote file now).1.total_categories =
      some ((fetch_categories_from_sheets "расходы" remote).length +
        (fetch_categories_from_sheets "доходы" remote).length) :=
  ⟨rfl, rfl, rfl, rfl, rfl⟩

/-- C4 (counterexample): the input `"inf"` does not denote a finite number,
yet `handle_amount_input_manual` accepts it — `float("inf")` succeeds and
`inf <= 0` is `False` — storing amount `inf` and advancing to
`entering_description`, refuting "succeeds exactly when s denotes a finite,
strictly positive number". -/
theorem c4_inf_accepted_and_advances :
    (handle_amount_input_manual true SessionState.cleared
        (some ConvState.entering_amount) "inf").conv =
      some ConvState.entering_description ∧
    (handle_amount_input_manual true SessionState.cleared
        (some ConvState.entering_amount) "inf").session.amount = some PyFloat.inf ∧
    PyFloat.inf.isFinite = false :=
  ⟨rfl, rfl, rfl⟩

/-- C4 (amended): in state `entering_amount`, for any non-cancel input, the
comma/dot normalisation is idempotent (so the parsed value equals parsing the
input with commas replaced by dots); parsing fails (`None`) or yields a value
`v` with `v <= 0` — then the user is re-prompted and session and state are
unchanged — or yields `v` with `not (v <= 0)` (which admits `inf` and `nan`
besides the finite positive values) — then the amount is stored and the
machine advances to `entering_description`. -/
theorem c4_amount_parsing_behaviour (sess : SessionState) (conv : Option ConvState)
    (text : String) (h : text ≠ "❌ Отмена") :
    pyFloat? (commaToDot (commaToDot text)) = pyFloat? (commaToDot text) ∧
    (pyFloat? (commaToDot text) = none →
      handle_amount_input_manual true sess conv text =
        ⟨sess, conv, [.sendMessage amount_error_text]⟩) ∧
    (∀ v, pyFloat? (commaToDot text) = some v → pyLeZero v = true →
      handle_amount_input_manual true sess conv text =
        ⟨sess, conv, [.sendMessage amount_error_text]⟩) ∧
    (∀ v, pyFloat? (commaToDot text) = some v → pyLeZero v = false →
      handle_amount_input_manual true sess conv text =
        ⟨{ sess with amount := some v }, some .entering_description,
         [.sendMessage "✅ Сумма принята",
          .sendMessage "📝 Введите описание транзакции:"]⟩) := by
  refine ⟨by rw [commaToDot_idem], ?_, ?_, ?_⟩
  · intro hp
    unfold handle_amount_input_manual
    rw [if_neg h, hp]
  · intro v hp hle
    unfold handle_amount_input_manual
    rw [if_neg h, hp]
    simp [hle]
  · intro v hp hle
    unfold handle_amount_input_manual
    rw [if_neg h, hp]
    simp [hle]

/-- C4 (witness): the concrete input `"150"` parses to the positive value
`150` and advances the machine. -/
theorem c4_amount_parsing_behaviour_witness :
    handle_amount_input_manual true SessionState.cleared
        (some ConvState.entering_amount) "150" =
      ⟨⟨none, none, some (PyFloat.finite 150), none, none⟩,
       some ConvState.entering_description,
       [.sendMessage "✅ Сумма принята",
        .sendMessage "📝 Введите описание транзакции:"]⟩ :=
  (c4_amount_parsing_behaviour SessionState.cleared (some ConvState.entering_amount)
    "150" (by decide)).2.2.2 (PyFloat.finite 150) (by decide) (by decide)

/-- C5 (counterexample): an entry whose age is exactly 24 hours is *not*
expired — `now > timestamp + 24h` is a strict comparison — so `load` returns
its content and `is_cache_valid` is `True`, refuting "24 hours or more is a
miss" and "valid exactly when age is under 24 hours". -/
theorem c5_age_exactly_24h_is_still_valid :
    is_cache_expired (Timestamp.time 0) 24 = false ∧
    load_categories (some (CacheContent.entry (Timestamp.time 0)
        [("расходы", ["Еда"])])) 24 = [("расходы", ["Еда"])] ∧
    is_cache_valid (some (CacheContent.entry (Timestamp.time 0)
        [("расходы", ["Еда"])])) 24 = true := by
  have h : ¬ ((24 : ℚ) > 0 + 24) := by norm_num
  exact ⟨by simp [is_cache_expired, h], by simp [load_categories, is_cache_expired, h],
    by simp [is_cache_valid, is_cache_expired, h]⟩

/-- C5 (amended): an entry is treated as a miss exactly when its age
*strictly exceeds* 24 hours — `load_categories` returns the content iff
`now ≤ timestamp + 24`, `is_cache_valid` decides `now ≤ timestamp + 24` —
and in particular the 25-hour-old entry of the claim is a miss regardless of
its content. -/
theorem c5_expiry_is_strict_24h (t now : ℚ) (cats : Cats) :
    (load_categories (some (CacheContent.entry (Timestamp.time t) cats)) now =
      if now > t + 24 then [] else cats) ∧
    (is_cache_valid (some (CacheContent.entry (Timestamp.time t) cats)) now =
      decide (now ≤ t + 24)) ∧
    is_cache_expired (Timestamp.time t) (t + 25) = true ∧
    load_categories (some (CacheContent.entry (Timestamp.time t) cats)) (t + 25) = [] := by
  have h25 : t + 25 > t + 24 := by linarith
  refine ⟨?_, ?_, ?_, ?_⟩
  · simp [load_categories, is_cache_expired]
  · simp [is_cache_valid, is_cache_expired, ← decide_not, not_lt]
  · simp [is_cache_expired, h25]
  · simp [load_categories, is_cache_expired, h25]

/-- C6: saving a category mapping and loading it back while the stored
timestamp is still within the 24-hour window returns exactly the saved
mapping (and the save reports success). -/
theorem c6_cache_roundtrip (C : Cats) (now later : ℚ) (h : later ≤ now + 24) :
    (save_categories C now).1 = true ∧
    load_categories (save_categories C now).2 later = C := by
  refine ⟨rfl, ?_⟩
  have hexp : is_cache_expired (Timestamp.time now) later = false := by
    simp [is_cache_expired, not_lt, h]
  simp [save_categories, load_categories, hexp]

/-- C6 (witness): immediately after saving (`later = now`), the mapping is
returned exactly. -/
theorem c6_cache_roundtrip_witness :
    (save_categories [("расходы", ["Еда"])] 0).1 = true ∧
    load_categories (save_categories [("расходы", ["Еда"])] 0).2 0 =
      [("расходы", ["Еда"])] :=
  c6_cache_roundtrip [("расходы", ["Еда"])] 0 0 (by norm_num)

/-- C7: `get_cache_info` is total (every branch of the source catches its
exceptions, so the embedding returns a descriptor for every file state —
missing, corrupt, missing timestamp, unparsable timestamp, well-formed), and
an existing-but-corrupt cache is reported distinguishably from a missing one:
the corrupt descriptor carries the error text where the missing descriptor
carries the fixed not-found message. -/
theorem c7_cache_info_never_raises_and_distinguishes_corrupt (now t : ℚ)
    (e s : String) (cats : Cats) :
    get_cache_info none now =
      { cache_exists := false, message := some "Кеш не найден" } ∧
    (get_cache_info (some (CacheContent.corrupt e)) now).error = some e ∧
    get_cache_info (some (CacheContent.corrupt e)) now ≠ get_cache_info none now ∧
    (get_cache_info (some (CacheContent.entry .missing cats)) now).cache_exists = true ∧
    (get_cache_info (some (CacheContent.entry .missing cats)) now).message =
      some "Неверный формат кеша" ∧
    (get_cache_info (some (CacheContent.entry (.unparsable s) cats)) now).error ≠ none ∧
    (get_cache_info (some (CacheContent.entry (.time t) cats)) now).age_hours =
      some (now - t) ∧
    (get_cache_info (some (CacheContent.entry (.time t) cats)) now).total_categories =
      some (total_cats cats) := by
  refine ⟨rfl, rfl, ?_, rfl, rfl, ?_, rfl, rfl⟩
  · intro hcontra
    have := congrArg CacheInfo.message hcontra
    simp [get_cache_info] at this
  · simp [get_cache_info]

/-- C8: from state `entering_amount`, the dedicated cancel token always
returns to `main_menu` with the session cleared, whatever the session held
(the allowlisted user re-passes the `check_access` call inside
`show_main_menu`). -/
theorem c8_cancel_clears_session_and_returns_to_main_menu (sess : SessionState) :
    handle_amount_input_manual true sess (some ConvState.entering_amount) "❌ Отмена" =
      ⟨SessionState.cleared, some ConvState.main_menu,
       [.sendMessage "❌ Действие отменено",
        .sendMessage "🏦 *Главное меню*\n\nВыберите действие:"]⟩ ∧
    SessionState.cleared.isEmpty = true :=
  ⟨rfl, rfl⟩

/-- C9: `get_categories` never raises (total by construction: the source and
all its callees catch their exceptions); with a cold cache it returns `[]`
both when the remote fetch raises and when the remote legitimately has no
categories, so the two are indistinguishable at the call site. -/
theorem c9_gateway_failure_indistinguishable_from_empty (category_type e : String)
    (now : ℚ) :
    (get_categories category_type (Except.error e) none now).1 = [] ∧
    (get_categories category_type (Except.error e)
        (some (CacheContent.corrupt e)) now).1 = [] ∧
    (get_categories category_type (Except.ok []) none now).1 = [] ∧
    (get_categories category_type (Except.error e) none now).1 =
      (get_categories category_type (Except.ok []) none now).1 :=
  ⟨rfl, rfl, rfl, rfl⟩

/-- C10: when the fetched category list is empty, the abort path of
`handle_add_transaction` leaves the conversation position unchanged but keeps
the session, which now contains the chosen kind written before the emptiness
check — so the session is non-empty after the aborted dialog. -/
theorem c10_empty_categories_abort_keeps_kind_in_session (sess : SessionState)
    (conv : Option ConvState) (data : String) :
    (handle_add_transaction true data sess conv []).session =
      ⟨some (if data = "add_expense" then "расходы" else "доходы"),
       sess.category, sess.amount, sess.description, sess.date⟩ ∧
    (handle_add_transaction true data sess conv []).session.isEmpty = false ∧
    (handle_add_transaction true data sess conv []).conv = conv :=
  ⟨rfl, rfl, rfl⟩

end FinanceBot
